import Mathlib

/-
Shallow embedding of the cel-go instruction interpreter
(interpreter/interpreter.go: `exprInterpretable` and its helpers).

The interpreter executes a linearized instruction program against an
Activation (hierarchical name bindings), a Dispatcher (function registry),
a Packager (qualified-name candidate generator) and a TypeProvider
(identifier/type resolver), threading a mutable Eval State that maps each
expression id to its last computed result.

Values, the Eval State store, the Activation, the Program/stepper and the
collaborator interfaces are declared outside the interpreter file; where
their code is not available they are modelled from the specification's
interface contracts, and each such definition says so in its doc comment.
All evaluator logic (evalIdent, evalSelect, resolveUnknown, evalCall,
evalCreateList, evalCreateMap, evalCreateType, evalMov, the Eval loop) is
translated directly from the Go source.
-/

set_option autoImplicit false

/--
Modelled from the spec: the concrete value type system (ref.Value) is an
external collaborator, specified only at its interface.  The tri-state
result taxonomy (concrete value / error / unknown-with-provenance) is part
of this core's contract, so errors and unknowns are constructors here.
`typeV` represents type values (the results of `v.Type()`), and `unknown`
carries the list of contributing expression ids (types.Unknown is []int64).
-/
inductive Value : Type where
  | intV (n : Int)
  | str (s : String)
  | boolV (b : Bool)
  | list (elems : List Value)
  | mapV (entries : List (Value × Value))
  | obj (typeName : String) (fields : List (String × Value))
  | typeV (name : String)
  | error (msg : String)
  | unknown (ids : List Int)
  deriving Repr

mutual

/--
Modelled from the spec: equality of runtime values, used only as the key
equality of the dynamic-map aggregate (Go builds `map[ref.Value]ref.Value`).
-/
def valueBeq : Value → Value → Bool
  | .intV a, .intV b => a == b
  | .str a, .str b => a == b
  | .boolV a, .boolV b => a == b
  | .list xs, .list ys => valueListBeq xs ys
  | .mapV xs, .mapV ys => valuePairsBeq xs ys
  | .obj n fs, .obj m gs => n == m && fieldPairsBeq fs gs
  | .typeV a, .typeV b => a == b
  | .error a, .error b => a == b
  | .unknown a, .unknown b => a == b
  | _, _ => false

/-- Pointwise `valueBeq` on lists of values. -/
def valueListBeq : List Value → List Value → Bool
  | [], [] => true
  | x :: xs, y :: ys => valueBeq x y && valueListBeq xs ys
  | _, _ => false

/-- Pointwise `valueBeq` on lists of key-value pairs. -/
def valuePairsBeq : List (Value × Value) → List (Value × Value) → Bool
  | [], [] => true
  | (k, v) :: xs, (l, w) :: ys => valueBeq k l && valueBeq v w && valuePairsBeq xs ys
  | _, _ => false

/-- Pointwise `valueBeq` on lists of field-value pairs. -/
def fieldPairsBeq : List (String × Value) → List (String × Value) → Bool
  | [], [] => true
  | (k, v) :: xs, (l, w) :: ys => k == l && valueBeq v w && fieldPairsBeq xs ys
  | _, _ => false

end

/--
Modelled from the spec: types.IsError.  Per the interface contract, values
expose "whether a given value denotes an error"; only an error value does.
A type value (the result of `v.Type()`) describes a type and does not
itself denote an error.
-/
def isError : Value → Bool
  | .error _ => true
  | _ => false

/--
Modelled from the spec: types.IsUnknown, the predicate for "whether a given
value denotes the unknown placeholder"; only an unknown value does.
-/
def isUnknown : Value → Bool
  | .unknown _ => true
  | _ => false

/--
Modelled from the spec: `v.Type()`, mapping every runtime value to the type
value describing it.  Error and unknown values have the error and unknown
types; a type value has type "type".
-/
def typeOf : Value → Value
  | .intV _ => .typeV "int"
  | .str _ => .typeV "string"
  | .boolV _ => .typeV "bool"
  | .list _ => .typeV "list"
  | .mapV _ => .typeV "map"
  | .obj typeName _ => .typeV typeName
  | .typeV _ => .typeV "type"
  | .error _ => .typeV "error"
  | .unknown _ => .typeV "unknown"

/--
Modelled from the spec: `operand.Type().HasTrait(traits.IndexerType)`.
Values "must expose whether they support indexing (field/key access)";
the aggregate values (lists, maps, typed objects) do, the rest do not.
-/
def hasIndexerTrait : Value → Bool
  | .list _ => true
  | .mapV _ => true
  | .obj _ _ => true
  | _ => false

/-- Contributor ids of an unknown value (the cast `operand.(types.Unknown)`). -/
def unknownIds : Value → List Int
  | .unknown ids => ids
  | _ => []

/-- Lookup in a dynamic-map aggregate by key equality. -/
def mapLookup : List (Value × Value) → Value → Option Value
  | [], _ => none
  | (k, v) :: rest, key => if valueBeq k key then some v else mapLookup rest key

/-- Lookup of a field in a typed-object aggregate. -/
def fieldLookup : List (String × Value) → String → Option Value
  | [], _ => none
  | (k, v) :: rest, field => if k = field then some v else fieldLookup rest field

/--
Modelled from the spec: `operand.(traits.Indexer).Get(types.String(field))`,
the indexing capability used by Select on indexable operands.  A missing
key or field yields an error value (dispatching failure classes are
ordinary values, never raised faults).
-/
def indexGet : Value → String → Value
  | .mapV entries, field =>
    match mapLookup entries (.str field) with
    | some v => v
    | none => .error ("no such key: " ++ field)
  | .obj _ fields, field =>
    match fieldLookup fields field with
    | some v => v
    | none => .error ("no such field: " ++ field)
  | _, field => .error ("no such key: " ++ field)

/--
Modelled from the spec: Eval State, the mutable mapping from expression id
to computed result, with overwrite allowed (`set(id, value)` stores a
result unconditionally).  Represented as an update-in-place association
list, so the set of keys is exactly the set of ids ever set.
-/
abbrev EvalState : Type := List (Int × Value)

/-- Eval State `set(id, value)`: overwrite the stored result, or append. -/
def setValue : EvalState → Int → Value → EvalState
  | [], exprId, v => [(exprId, v)]
  | (k, w) :: rest, exprId, v =>
    if k = exprId then (exprId, v) :: rest else (k, w) :: setValue rest exprId v

/-- Eval State `get(id)`: the stored result, or none. -/
def stateGet : EvalState → Int → Option Value
  | [], _ => none
  | (k, w) :: rest, exprId => if k = exprId then some w else stateGet rest exprId

/--
The interpreter's total read `value(id)` (interpreter.go lines 284-289):
the stored result if present, else the unknown sentinel carrying that id.
-/
def value (st : EvalState) (exprId : Int) : Value :=
  match stateGet st exprId with
  | some object => object
  | none => .unknown [exprId]

/--
Modelled from the spec: `only_value()` returns the single stored value if
and only if exactly one id has ever been set.  Under the update-in-place
representation the ids ever set are exactly the keys present.
-/
def onlyValue : EvalState → Option Value
  | [(_, v)] => some v
  | _ => none

/--
Modelled from the spec: an Activation binding is a lazily-produced value.
A caller-supplied binding is a plain value; a scope binding installed by
PushScope is a thunk that reads the current Eval State at an expression id
when the binding is resolved (`func() interface\x7b\x7d`).
-/
inductive Binding : Type where
  | val (v : Value)
  | thunk (declId : Int)

/--
Modelled from the spec: the Activation, an immutable-from-below chain of
binding frames.  `base` is one frame (bindings plus unresolved-reference
records keyed by expression id); `hier` is NewHierarchicalActivation,
whose lookups try the child frame before the parent chain.
-/
inductive Activation : Type where
  | base (bindings : List (String × Binding)) (refs : List (Int × Value))
  | hier (parent : Activation) (child : Activation)

/-- Lookup of a name in one frame's binding list. -/
def lookupBinding : List (String × Binding) → String → Option Binding
  | [], _ => none
  | (k, b) :: rest, name => if k = name then some b else lookupBinding rest name

/-- Lookup of an expression id in one frame's unresolved-reference records. -/
def lookupRef : List (Int × Value) → Int → Option Value
  | [], _ => none
  | (k, v) :: rest, exprId => if k = exprId then some v else lookupRef rest exprId

/--
Activation `ResolveName`: search the current frame (child before parent for
a hierarchical activation), evaluating a lazy binding when it is found.  A
thunk reads the current Eval State, so resolution needs the state.
-/
def resolveName (st : EvalState) : Activation → String → Option Value
  | .base bindings _, name =>
    match lookupBinding bindings name with
    | some (.val v) => some v
    | some (.thunk declId) => some (value st declId)
    | none => none
  | .hier parent child, name =>
    match resolveName st child name with
    | some v => some v
    | none => resolveName st parent name

/--
Activation `ResolveReference`: look up a recorded "this expression id means
this value" annotation, child frame before parent chain.
-/
def resolveReference : Activation → Int → Option Value
  | .base _ refs, exprId => lookupRef refs exprId
  | .hier parent child, exprId =>
    match resolveReference child exprId with
    | some v => some v
    | none => resolveReference parent exprId

/-- Activation `Parent()`; the root frame has no parent. -/
def parentOf : Activation → Option Activation
  | .base _ _ => none
  | .hier parent _ => some parent

/--
The instruction variants dispatched by the Eval loop's type switch: Ident,
Select, Call, CreateList, CreateMap, CreateObject, Mov, Jump, PushScope and
PopScope.  Each carries its expression id.  A Jump carries its condition
as a predicate over the Eval State (`OnCondition(state) bool`) and its
relative step count.  CreateMap key-value pairs, CreateObject field
initializers and PushScope declarations are kept in declaration order.
-/
inductive Instr : Type where
  | ident (exprId : Int) (name : String)
  | select (exprId : Int) (operand : Int) (field : String)
  | call (exprId : Int) (function : String) (args : List Int) (strict : Bool)
  | createList (exprId : Int) (elements : List Int)
  | createMap (exprId : Int) (keyValues : List (Int × Int))
  | createObject (exprId : Int) (typeName : String) (fieldValues : List (String × Int))
  | mov (exprId : Int) (toExprId : Int)
  | jump (exprId : Int) (cond : EvalState → Bool) (count : Int)
  | pushScope (exprId : Int) (decls : List (String × Int))
  | popScope (exprId : Int)

/-- `GetId()` of an instruction. -/
def Instr.getId : Instr → Int
  | .ident exprId _ => exprId
  | .select exprId _ _ => exprId
  | .call exprId _ _ _ => exprId
  | .createList exprId _ => exprId
  | .createMap exprId _ => exprId
  | .createObject exprId _ _ => exprId
  | .mov exprId _ => exprId
  | .jump exprId _ _ => exprId
  | .pushScope exprId _ => exprId
  | .popScope exprId => exprId

/--
Modelled from the spec: the Program, an ordered instruction sequence plus
source-position metadata, with random-access lookup of any instruction by
its identifier and a restartable cursor over the sequence.
-/
structure Program : Type where
  instructions : List Instr
  metadata : List (Int × Int)

/-- Program `GetInstruction(id)`: lookup of an instruction by its id. -/
def Program.getInstruction (p : Program) (exprId : Int) : Option Instr :=
  p.instructions.find? (fun inst => inst.getId == exprId)

/--
Modelled from the spec: the Packager collaborator,
`resolve_candidate_names(name)` returning the ordered list of
fully-qualified candidate spellings.
-/
structure Packager : Type where
  resolveCandidateNames : String → List String

/--
Modelled from the spec: the identifier/type resolver collaborator with
`find_ident`, `find_type` and `new_value`.
-/
structure TypeProvider : Type where
  findIdent : String → Option Value
  findType : String → Option String
  newValue : String → List (String × Value) → Value

/--
The CallContext built per call instruction: the call's fields, the
enclosing Activation, the resolved argument values and program metadata.
-/
structure CallContext : Type where
  callId : Int
  function : String
  argIds : List Int
  strict : Bool
  activation : Activation
  args : List Value
  metadata : List (Int × Int)

/--
The per-evaluation context: the injected Dispatcher (modelled from the
spec as its `dispatch(context) value` entry point), the Packager, the
TypeProvider and the Program under execution (the fields of
exprInterpreter plus exprInterpretable's program).
-/
structure Ctx : Type where
  dispatcher : CallContext → Value
  packager : Packager
  typeProvider : TypeProvider
  program : Program

/--
evalIdent: try `ResolveName` on the current Activation; else ask the type
provider's `FindIdent`; else record unknown carrying the Ident's own id.
-/
def evalIdent (ctx : Ctx) (act : Activation) (st : EvalState)
    (exprId : Int) (name : String) : EvalState :=
  match resolveName st act name with
  | some result => setValue st exprId result
  | none =>
    match ctx.typeProvider.findIdent name with
    | some idVal => setValue st exprId idVal
    | none => setValue st exprId (.unknown [exprId])

/--
The dotted-name reconstruction walk of resolveUnknown: each contributing
id adds a segment on the left (an Ident its name, a Select its field, any
other instruction its evaluated value provided that value is a string).
A non-string contributor invalidates the reconstruction (none), matching
`validIdent = false` followed by break.
-/
def buildIdentifier (p : Program) (st : EvalState) : List Int → String → Option String
  | [], identifier => some identifier
  | arg :: rest, identifier =>
    match p.getInstruction arg with
    | some (.ident _ name) => buildIdentifier p st rest (name ++ "." ++ identifier)
    | some (.select _ _ field) => buildIdentifier p st rest (field ++ "." ++ identifier)
    | _ =>
      match value st arg with
      | .str s => buildIdentifier p st rest (s ++ "." ++ identifier)
      | _ => none

/--
The candidate loop of resolveUnknown: for each candidate spelling, first
`ResolveName` on the current Activation, then the type provider's
`FindIdent`; the first hit is stored as the Select's result.  When no
candidate resolves, the fallback value (the new unknown) is stored.
-/
def tryCandidates (ctx : Ctx) (act : Activation) (st : EvalState)
    (selId : Int) (fallback : Value) : List String → EvalState
  | [] => setValue st selId fallback
  | cand :: rest =>
    match resolveName st act cand with
    | some object => setValue st selId object
    | none =>
      match ctx.typeProvider.findIdent cand with
      | some identVal => setValue st selId identVal
      | none => tryCandidates ctx act st selId fallback rest

/--
resolveUnknown: a Select whose operand evaluated to unknown may really be
a dotted qualified name.  A previously recorded resolved reference for the
Select's id wins outright; otherwise the dotted name is reconstructed from
the unknown's contributor ids and the Select's own field, and each
candidate spelling is tried.  If reconstruction fails (`validIdent` is
false) the function returns with no store at all; if no candidate
resolves, a new unknown with the Select's id prepended to the original
contributors is stored.
-/
def resolveUnknown (ctx : Ctx) (act : Activation) (st : EvalState)
    (ids : List Int) (selId : Int) (field : String) : EvalState :=
  match resolveReference act selId with
  | some object => setValue st selId object
  | none =>
    match buildIdentifier ctx.program st ids field with
    | none => st
    | some identifier =>
      tryCandidates ctx act st selId (.unknown (selId :: ids))
        (ctx.packager.resolveCandidateNames identifier)

/--
evalSelect: read the operand; an operand without the indexing trait is
either unknown (enter resolveUnknown) or an error case, where the source
stores error "invalid operand in select" at the OPERAND's id
(`i.setValue(selExpr.Operand, ...)`, interpreter.go line 160).  An
indexable operand has its field fetched and stored at the Select's id.
-/
def evalSelect (ctx : Ctx) (act : Activation) (st : EvalState)
    (selId : Int) (operandId : Int) (field : String) : EvalState :=
  let operand := value st operandId
  if !(hasIndexerTrait operand) then
    if isUnknown operand then
      resolveUnknown ctx act st (unknownIds operand) selId field
    else
      setValue st operandId (.error "invalid operand in select")
  else
    setValue st selId (indexGet operand field)

/--
The argument loop of evalCall: read each argument id in order; under a
strict call, the first argument value that is an error or unknown is
returned as the short-circuit result (inl); otherwise all argument values
are collected in order (inr).
-/
def evalCallLoop (st : EvalState) (strict : Bool) : List Int → List Value → Sum Value (List Value)
  | [], argVals => .inr argVals.reverse
  | argId :: rest, argVals =>
    let argVal := value st argId
    if strict && (isError argVal || isUnknown argVal) then .inl argVal
    else evalCallLoop st strict rest (argVal :: argVals)

/--
evalCall: evaluate the argument ids in order; a strict call short-circuits
on the first error-or-unknown argument value, storing it as the call's
result without dispatching; otherwise a CallContext is built and the
Dispatcher's returned value is stored.
-/
def evalCall (ctx : Ctx) (act : Activation) (st : EvalState)
    (exprId : Int) (function : String) (args : List Int) (strict : Bool) : EvalState :=
  match evalCallLoop st strict args [] with
  | .inl offending => setValue st exprId offending
  | .inr argVals =>
    setValue st exprId (ctx.dispatcher
      { callId := exprId, function := function, argIds := args, strict := strict,
        activation := act, args := argVals, metadata := ctx.program.metadata })

/--
The element loop of evalCreateList.  Note the source checks
`types.IsError(elem.Type()) || types.IsUnknown(elem.Type())` — the
predicates are applied to the element's TYPE value, not the element — and
on a hit would return the element; otherwise elements are collected.
-/
def evalCreateListLoop (st : EvalState) : List Int → List Value → Sum Value (List Value)
  | [], elements => .inr elements.reverse
  | elementId :: rest, elements =>
    let elem := value st elementId
    if isError (typeOf elem) || isUnknown (typeOf elem) then .inl elem
    else evalCreateListLoop st rest (value st elementId :: elements)

/-- evalCreateList: run the element loop, then store the offending value or a list aggregate. -/
def evalCreateList (st : EvalState) (exprId : Int) (elementIds : List Int) : EvalState :=
  match evalCreateListLoop st elementIds [] with
  | .inl offending => setValue st exprId offending
  | .inr elements => setValue st exprId (.list elements)

/-- Insertion into the dynamic-map aggregate: a later entry with an equal key overwrites. -/
def mapInsert : List (Value × Value) → Value → Value → List (Value × Value)
  | [], key, v => [(key, v)]
  | (k, w) :: rest, key, v =>
    if valueBeq k key then (k, v) :: rest else (k, w) :: mapInsert rest key v

/--
The entry loop of evalCreateMap: read each declared key then its value.
As in evalCreateListLoop, the source applies IsError/IsUnknown to
`key.Type()` and `val.Type()` rather than to the key and value themselves.
-/
def evalCreateMapLoop (st : EvalState) : List (Int × Int) → List (Value × Value) → Sum Value (List (Value × Value))
  | [], entries => .inr entries
  | (keyId, valueId) :: rest, entries =>
    let key := value st keyId
    if isError (typeOf key) || isUnknown (typeOf key) then .inl key
    else
      let val := value st valueId
      if isError (typeOf val) || isUnknown (typeOf val) then .inl val
      else evalCreateMapLoop st rest (mapInsert entries key val)

/-- evalCreateMap: run the entry loop, then store the offending value or a map aggregate. -/
def evalCreateMap (st : EvalState) (exprId : Int) (keyValues : List (Int × Int)) : EvalState :=
  match evalCreateMapLoop st keyValues [] with
  | .inl offending => setValue st exprId offending
  | .inr entries => setValue st exprId (.mapV entries)

/-- Insertion into a typed-object field map: a later entry for an equal field overwrites. -/
def fieldInsert : List (String × Value) → String → Value → List (String × Value)
  | [], field, v => [(field, v)]
  | (k, w) :: rest, field, v =>
    if k = field then (k, v) :: rest else (k, w) :: fieldInsert rest field v

/--
The field loop of evalCreateType: read each field initializer's value in
declaration order; here the source checks IsError/IsUnknown on the VALUE
itself, and the first error-or-unknown short-circuits.
-/
def evalCreateTypeLoop (st : EvalState) : List (String × Int) → List (String × Value) → Sum Value (List (String × Value))
  | [], fields => .inr fields
  | (field, valueId) :: rest, fields =>
    let val := value st valueId
    if isError val || isUnknown val then .inl val
    else evalCreateTypeLoop st rest (fieldInsert fields field val)

/--
Qualified type-name resolution for CreateObject: the first candidate
spelling known to the type provider wins; with no hit the original name is
kept.
-/
def resolveTypeName (ctx : Ctx) (typeName : String) : String :=
  match (ctx.packager.resolveCandidateNames typeName).find?
      (fun qualifiedTypeName => (ctx.typeProvider.findType qualifiedTypeName).isSome) with
  | some qualifiedTypeName => qualifiedTypeName
  | none => typeName

/-- newValue: ask the type provider to construct a typed value from the resolved name and fields. -/
def newValue (ctx : Ctx) (typeName : String) (fields : List (String × Value)) : Value :=
  ctx.typeProvider.newValue (resolveTypeName ctx typeName) fields

/-- evalCreateType: run the field loop, then store the offending value or the constructed object. -/
def evalCreateType (ctx : Ctx) (st : EvalState)
    (exprId : Int) (typeName : String) (fieldValues : List (String × Int)) : EvalState :=
  match evalCreateTypeLoop st fieldValues [] with
  | .inl offending => setValue st exprId offending
  | .inr fields => setValue st exprId (newValue ctx typeName fields)

/-- evalMov: copy the value currently stored at the Mov's own id to its target id. -/
def evalMov (st : EvalState) (exprId : Int) (toExprId : Int) : EvalState :=
  setValue st toExprId (value st exprId)

/--
The scope bindings built by PushScope.  The Go source (pre-1.22 loop
variable semantics) builds one closure per declared name over the SHARED
range variable declId:

  for key, declId := range scopeDecls
    childActivaton[key] = func() interface\x7b\x7d \x7b return i.value(declId) \x7d

By the time any of these thunks is resolved the loop has finished, so
declId holds the id of the final iteration and every declared name reads
that one id.  The Go map's iteration order is unspecified; here the
declarations are iterated in list order, so the shared id is the last
declaration's.
-/
def scopeBindings (decls : List (String × Int)) : List (String × Binding) :=
  match decls.getLast? with
  | none => []
  | some last => decls.map (fun kv => (kv.1, Binding.thunk last.2))

/--
Modelled from the spec: the stepper's JumpCount, moving the cursor by the
jump's count relative to the position after the default single step.  A
target outside 0..length is a fatal fault (none), which aborts the loop
as the source's hard failure does.
-/
def jumpTarget (len : Nat) (cursor : Nat) (count : Int) : Option Nat :=
  let target : Int := (cursor : Int) + count
  if 0 ≤ target ∧ target ≤ (len : Int) then some target.toNat else none

/--
The Eval execution loop: step through the instructions, dispatch on the
variant, track the last-executed instruction's id as resultId, mutate the
Eval State or the Activation chain, and stop when the stepper reports no
further instructions, returning the final state and resultId.  The loop
is fuel-indexed because a Jump may move the cursor backwards; none means
fuel exhaustion or a fatal fault (an out-of-range jump, or PopScope on
the root activation).
-/
def evalLoop (ctx : Ctx) : Nat → Nat → Activation → EvalState → Int → Option (EvalState × Int)
  | 0, _, _, _, _ => none
  | fuel + 1, cursor, act, st, resultId =>
    match ctx.program.instructions.get? cursor with
    | none => some (st, resultId)
    | some step =>
      match step with
      | .ident exprId name =>
        evalLoop ctx fuel (cursor + 1) act (evalIdent ctx act st exprId name) exprId
      | .select exprId operandId field =>
        evalLoop ctx fuel (cursor + 1) act (evalSelect ctx act st exprId operandId field) exprId
      | .call exprId function args strict =>
        evalLoop ctx fuel (cursor + 1) act (evalCall ctx act st exprId function args strict) exprId
      | .createList exprId elements =>
        evalLoop ctx fuel (cursor + 1) act (evalCreateList st exprId elements) exprId
      | .createMap exprId keyValues =>
        evalLoop ctx fuel (cursor + 1) act (evalCreateMap st exprId keyValues) exprId
      | .createObject exprId typeName fieldValues =>
        evalLoop ctx fuel (cursor + 1) act (evalCreateType ctx st exprId typeName fieldValues) exprId
      | .mov exprId toExprId =>
        evalLoop ctx fuel (cursor + 1) act (evalMov st exprId toExprId) exprId
      | .jump exprId cond count =>
        if cond st then
          match jumpTarget ctx.program.instructions.length (cursor + 1) count with
          | some target => evalLoop ctx fuel target act st exprId
          | none => none
        else evalLoop ctx fuel (cursor + 1) act st exprId
      | .pushScope exprId decls =>
        evalLoop ctx fuel (cursor + 1)
          (Activation.hier act (Activation.base (scopeBindings decls) [])) st exprId
      | .popScope exprId =>
        match parentOf act with
        | some parent => evalLoop ctx fuel (cursor + 1) parent st exprId
        | none => none

/--
The final result computation at the end of Eval: `result := i.value(resultId)`.
The source follows with `if result == nil` falling back to OnlyValue, but
`value` is total and returns the unknown sentinel on a miss, never a nil
interface, so that fallback cannot trigger.
-/
def finalResult (st : EvalState) (resultId : Int) : Value :=
  value st resultId

/--
Eval: run the loop from cursor 0 with the caller's Activation, a fresh
Eval State and resultId 0 (the Go zero value), then return the final
result alongside the populated Eval State.
-/
def Eval (ctx : Ctx) (fuel : Nat) (act : Activation) : Option (Value × EvalState) :=
  match evalLoop ctx fuel 0 act [] 0 with
  | some (st, resultId) => some (finalResult st resultId, st)
  | none => none

/--
The first error-or-unknown value among the given argument ids, scanning
left to right through the Eval State — the specification's "first
(leftmost) offending argument".
-/
def firstOffending (st : EvalState) : List Int → Option Value
  | [] => none
  | argId :: rest =>
    if isError (value st argId) || isUnknown (value st argId) then some (value st argId)
    else firstOffending st rest

/-- A trivial context: constant dispatcher, identity candidate list, empty resolver, empty program. -/
def ctx0 : Ctx :=
  { dispatcher := fun _ => Value.boolV true,
    packager := { resolveCandidateNames := fun name => [name] },
    typeProvider :=
      { findIdent := fun _ => none,
        findType := fun _ => none,
        newValue := fun typeName fields => Value.obj typeName fields },
    program := { instructions := [], metadata := [] } }

/-- The empty root Activation. -/
def act0 : Activation := .base [] []

/-- State with one error entry, for exercising strict-call short-circuiting. -/
def stW : EvalState := [(1, Value.error "boom")]

/-- Activation binding x to 5, for the Ident precedence witness. -/
def act6 : Activation := .base [("x", .val (Value.intV 5))] []

/-- Type provider that also defines x (as 6), for the Ident precedence witness. -/
def tp6 : TypeProvider :=
  { findIdent := fun name => if name = "x" then some (Value.intV 6) else none,
    findType := fun _ => none,
    newValue := fun typeName fields => Value.obj typeName fields }

/-- Context with the x-defining type provider. -/
def ctx6 : Ctx := { ctx0 with typeProvider := tp6 }

/-- Program selecting field f of identifier x. -/
def prog3 : Program := { instructions := [.ident 1 "x", .select 2 1 "f"], metadata := [] }

/-- Context running prog3. -/
def ctx3 : Ctx := { ctx0 with program := prog3 }

/-- Activation binding x to the non-indexable value 3. -/
def act3 : Activation := .base [("x", .val (Value.intV 3))] []

/-- Program selecting field z of the unbound identifier y. -/
def prog4 : Program := { instructions := [.ident 1 "y", .select 2 1 "z"], metadata := [] }

/-- Context running prog4 (no binding and no identifier/type match for any candidate). -/
def ctx4 : Ctx := { ctx0 with program := prog4 }

/-- State holding 10 at id 1 and 20 at id 2, for the scope-binding fixtures. -/
def st5 : EvalState := [(1, Value.intV 10), (2, Value.intV 20)]

/-- The child Activation a PushScope declaring a -> 1, b -> 2 installs. -/
def act5 : Activation := .hier act0 (.base (scopeBindings [("a", 1), ("b", 2)]) [])

/-- Program computing 10 and 20, pushing a scope declaring a -> 1 and b -> 2, then reading a. -/
def prog5 : Program :=
  { instructions :=
      [.call 1 "ten" [] false, .call 2 "twenty" [] false,
       .pushScope 3 [("a", 1), ("b", 2)], .ident 4 "a"],
    metadata := [] }

/-- Context running prog5 with a dispatcher returning 10 for "ten" and 20 otherwise. -/
def ctx5 : Ctx :=
  { ctx0 with
    dispatcher := fun c => if c.function = "ten" then Value.intV 10 else Value.intV 20,
    program := prog5 }

/--
Program whose Select (id 3) sees an unknown operand contributed by id 1,
whose instruction is a CreateList (neither Ident nor Select) that has not
yet stored a value, so dotted-name reconstruction fails.
-/
def prog7 : Program :=
  { instructions := [.call 2 "f" [1] true, .select 3 2 "z", .createList 1 []],
    metadata := [] }

/-- Context running prog7. -/
def ctx7 : Ctx := { ctx0 with program := prog7 }

/-- Program whose last instruction (a PushScope) stores no value. -/
def prog8 : Program := { instructions := [.ident 1 "x", .pushScope 2 []], metadata := [] }

/-- Context running prog8. -/
def ctx8 : Ctx := { ctx0 with program := prog8 }

/-- Activation binding x to 3, for the final-result fixtures. -/
def act8 : Activation := .base [("x", .val (Value.intV 3))] []

theorem isError_typeOf (v : Value) : isError (typeOf v) = false := by
  cases v <;> rfl

theorem isUnknown_typeOf (v : Value) : isUnknown (typeOf v) = false := by
  cases v <;> rfl

theorem evalCallLoop_strict_offending (st : EvalState) :
    ∀ (args : List Int) (acc : List Value) (v : Value),
      firstOffending st args = some v → evalCallLoop st true args acc = .inl v := by
  intro args
  induction args with
  | nil => intro acc v h; simp [firstOffending] at h
  | cons argId rest ih =>
    intro acc v h
    by_cases hc : (isError (value st argId) || isUnknown (value st argId)) = true
    · rw [firstOffending, if_pos hc] at h
      cases h
      rw [evalCallLoop]
      simp [hc]
    · rw [firstOffending, if_neg hc] at h
      rw [evalCallLoop]
      simp only [Bool.true_and]
      rw [if_neg hc]
      exact ih _ v h

theorem evalCallLoop_strict_none (st : EvalState) :
    ∀ (args : List Int) (acc : List Value),
      firstOffending st args = none →
      evalCallLoop st true args acc = .inr (acc.reverse ++ args.map (value st)) := by
  intro args
  induction args with
  | nil => intro acc _; simp [evalCallLoop]
  | cons argId rest ih =>
    intro acc h
    by_cases hc : (isError (value st argId) || isUnknown (value st argId)) = true
    · rw [firstOffending, if_pos hc] at h
      cases h
    · rw [firstOffending, if_neg hc] at h
      rw [evalCallLoop]
      simp only [Bool.true_and]
      rw [if_neg hc, ih _ h]
      simp

theorem evalCallLoop_nonstrict (st : EvalState) :
    ∀ (args : List Int) (acc : List Value),
      evalCallLoop st false args acc = .inr (acc.reverse ++ args.map (value st)) := by
  intro args
  induction args with
  | nil => intro acc; simp [evalCallLoop]
  | cons argId rest ih =>
    intro acc
    rw [evalCallLoop]
    simp only [Bool.false_and, if_neg Bool.false_ne_true]
    rw [ih]
    simp

theorem tryCandidates_sets (ctx : Ctx) (act : Activation) (st : EvalState)
    (selId : Int) (fallback : Value) :
    ∀ cands : List String,
      ∃ v, tryCandidates ctx act st selId fallback cands = setValue st selId v := by
  intro cands
  induction cands with
  | nil => exact ⟨fallback, rfl⟩
  | cons cand rest ih =>
    cases h : resolveName st act cand with
    | some object => exact ⟨object, by rw [tryCandidates, h]⟩
    | none =>
      cases h2 : ctx.typeProvider.findIdent cand with
      | some identVal => exact ⟨identVal, by rw [tryCandidates, h, h2]⟩
      | none =>
        obtain ⟨v, hv⟩ := ih
        exact ⟨v, by rw [tryCandidates, h, h2, hv]⟩

/--
C1: for a strict Call the argument ids are read left to right; when some
argument's value is an error or unknown, the first (leftmost) such value is
stored as the call's result, for EVERY dispatcher context and activation —
so the dispatcher is not invoked and no later argument influences the
result; when no argument value is offending, the value the dispatcher
returns on the CallContext of all argument values (in order) is stored.
-/
theorem evalCall_strict_short_circuit (ctx : Ctx) (act : Activation) (st : EvalState)
    (exprId : Int) (function : String) (args : List Int) :
    (∀ v, firstOffending st args = some v →
      ∀ (ctx2 : Ctx) (act2 : Activation),
        evalCall ctx2 act2 st exprId function args true = setValue st exprId v) ∧
    (firstOffending st args = none →
      evalCall ctx act st exprId function args true =
        setValue st exprId (ctx.dispatcher
          { callId := exprId, function := function, argIds := args, strict := true,
            activation := act, args := args.map (value st),
            metadata := ctx.program.metadata })) := by
  constructor
  · intro v h ctx2 act2
    unfold evalCall
    rw [evalCallLoop_strict_offending st args [] v h]
  · intro h
    unfold evalCall
    rw [evalCallLoop_strict_none st args [] h]
    simp

/-- Witness for C1 at a concrete strict call whose first argument is an error. -/
theorem evalCall_strict_short_circuit_witness :
    evalCall ctx0 act0 stW 9 "f" [1, 2] true = setValue stW 9 (Value.error "boom") :=
  (evalCall_strict_short_circuit ctx0 act0 stW 9 "f" [1, 2]).1 (Value.error "boom") rfl ctx0 act0

/--
C10: a Call with is_strict false never short-circuits: all argument values
are collected in order and passed in the CallContext, and the dispatcher's
returned value is stored as the call's result, whatever the argument values
(including errors and unknowns).
-/
theorem evalCall_nonstrict_dispatches (ctx : Ctx) (act : Activation) (st : EvalState)
    (exprId : Int) (function : String) (args : List Int) :
    evalCall ctx act st exprId function args false =
      setValue st exprId (ctx.dispatcher
        { callId := exprId, function := function, argIds := args, strict := false,
          activation := act, args := args.map (value st),
          metadata := ctx.program.metadata }) := by
  unfold evalCall
  rw [evalCallLoop_nonstrict]
  simp

theorem evalCreateListLoop_never_short_circuits (st : EvalState) :
    ∀ (elementIds : List Int) (acc : List Value),
      evalCreateListLoop st elementIds acc = .inr (acc.reverse ++ elementIds.map (value st)) := by
  intro elementIds
  induction elementIds with
  | nil => intro acc; simp [evalCreateListLoop]
  | cons elementId rest ih =>
    intro acc
    rw [evalCreateListLoop]
    simp only [isError_typeOf, isUnknown_typeOf, Bool.or_self, if_neg Bool.false_ne_true]
    rw [ih]
    simp

/--
C2 (code bug): CreateList and CreateMap apply the error/unknown test to
elem.Type() rather than to elem, and a type value never denotes an error or
the unknown placeholder, so the strict check cannot fire: a list aggregate
is ALWAYS stored (first conjunct), and concretely an error element, an
error key and an unknown element are embedded into the stored aggregates
instead of short-circuiting.
-/
theorem createAggregate_strict_check_dead :
    (∀ (st : EvalState) (exprId : Int) (elementIds : List Int),
      evalCreateList st exprId elementIds
        = setValue st exprId (.list (elementIds.map (value st)))) ∧
    evalCreateList [(1, Value.error "boom")] 2 [1]
      = [(1, Value.error "boom"), (2, Value.list [Value.error "boom"])] ∧
    evalCreateMap [(1, Value.error "boom")] 2 [(1, 1)]
      = [(1, Value.error "boom"), (2, Value.mapV [(Value.error "boom", Value.error "boom")])] ∧
    evalCreateList [(1, Value.unknown [1])] 2 [1]
      = [(1, Value.unknown [1]), (2, Value.list [Value.unknown [1]])] := by
  refine ⟨?_, rfl, rfl, rfl⟩
  intro st exprId elementIds
  unfold evalCreateList
  rw [evalCreateListLoop_never_short_circuits]
  simp

/--
C3 (code bug): a Select whose operand lacks the indexing trait and is not
unknown stores error "invalid operand in select" at the OPERAND's id,
overwriting the operand's value, and leaves the Select's own id with no
stored result; end to end, Eval of [Ident 1 x, Select 2 1 f] with x bound
to 3 ends with the error at id 1, nothing at id 2, and the unknown
sentinel for id 2 as the final result.
-/
theorem evalSelect_error_stored_at_operand :
    evalSelect ctx0 act0 [(1, Value.intV 3)] 2 1 "f"
      = [(1, Value.error "invalid operand in select")] ∧
    Eval ctx3 10 act3
      = some (Value.unknown [2], [(1, Value.error "invalid operand in select")]) ∧
    stateGet [(1, Value.error "invalid operand in select")] 2 = none :=
  ⟨rfl, rfl, rfl⟩

/--
C4 counterexample: for [Ident 1 y, Select 2 1 z] with no binding and no
identifier/type match, the result is Unknown with contributor ids [2, 1]
(the Select's id prepended to the operand's contributors), which is not
the claimed order [1, 2].
-/
theorem eval_unknown_contributors_not_ascending :
    Eval ctx4 10 act0
      = some (Value.unknown [2, 1], [(1, Value.unknown [1]), (2, Value.unknown [2, 1])]) ∧
    Value.unknown [2, 1] ≠ Value.unknown [1, 2] :=
  ⟨rfl, by simp⟩

/--
C4 amended: the result of the two-instruction program is Unknown with
contributor ids [2, 1] — the Select's id prepended to the original
unknown's contributor set.
-/
theorem eval_unknown_contributors_prepended :
    (Eval ctx4 10 act0).map Prod.fst = some (Value.unknown [2, 1]) := rfl

/--
C5 (code bug): every scope binding thunk reads the shared loop variable,
which after the loop holds the LAST declaration's expr id, so with
declarations a -> 1 and b -> 2 (iterated in that order) both names resolve
to the value at id 2; end to end, reading a after the scope push yields 20
(id 2's value), not 10 (id 1's value).
-/
theorem pushScope_bindings_share_last_decl :
    resolveName st5 act5 "a" = some (Value.intV 20) ∧
    resolveName st5 act5 "b" = some (Value.intV 20) ∧
    Eval ctx5 10 act0
      = some (Value.intV 20,
          [(1, Value.intV 10), (2, Value.intV 20), (4, Value.intV 20)]) ∧
    Value.intV 20 ≠ Value.intV 10 :=
  ⟨rfl, rfl, rfl, by simp⟩

/--
C6: Ident resolution precedence — the current Activation's ResolveName
first; only when it finds nothing is the type provider's FindIdent asked;
only when both miss is unknown(self id) stored.  In particular an
Activation binding wins whatever the type provider would say.
-/
theorem evalIdent_precedence (ctx : Ctx) (act : Activation) (st : EvalState)
    (exprId : Int) (name : String) :
    (∀ v, resolveName st act name = some v →
      evalIdent ctx act st exprId name = setValue st exprId v) ∧
    (resolveName st act name = none →
      (∀ w, ctx.typeProvider.findIdent name = some w →
        evalIdent ctx act st exprId name = setValue st exprId w) ∧
      (ctx.typeProvider.findIdent name = none →
        evalIdent ctx act st exprId name = setValue st exprId (Value.unknown [exprId]))) := by
  refine ⟨fun v h => ?_, fun h => ⟨fun w hw => ?_, fun hw => ?_⟩⟩
  · simp [evalIdent, h]
  · simp [evalIdent, h, hw]
  · simp [evalIdent, h, hw]

/--
Witness for C6: the Activation binds x to 5 and the type provider defines
x as 6; the Activation's value is stored.
-/
theorem evalIdent_precedence_witness :
    evalIdent ctx6 act6 [] 3 "x" = setValue [] 3 (Value.intV 5) ∧
    ctx6.typeProvider.findIdent "x" = some (Value.intV 6) :=
  ⟨(evalIdent_precedence ctx6 act6 [] 3 "x").1 (Value.intV 5) rfl, rfl⟩

/--
C7 counterexample: in prog7 the Select at id 3 enters unknown-resolution
(its operand, id 2's value, is unknown with contributor 1) and dotted-name
reconstruction fails because contributor 1's instruction is a CreateList
whose current value is not a string; resolveUnknown then returns without
storing, so evaluation ends with NO stored result under id 3.
-/
theorem resolveUnknown_leaves_select_unset :
    Eval ctx7 10 act0
      = some (Value.list [], [(2, Value.unknown [1]), (1, Value.list [])]) ∧
    stateGet [(2, Value.unknown [1]), (1, Value.list [])] 3 = none :=
  ⟨rfl, rfl⟩

/--
C7 amended: unknown-resolution always terminates, and either stores some
result under the Select's id, or — exactly the reconstruction-failure path
with no recorded reference — returns the Eval State unchanged, leaving the
Select's id without a stored result (whose reads then yield the unknown
sentinel).
-/
theorem resolveUnknown_stores_or_unchanged (ctx : Ctx) (act : Activation) (st : EvalState)
    (ids : List Int) (selId : Int) (field : String) :
    (∃ v, resolveUnknown ctx act st ids selId field = setValue st selId v) ∨
    resolveUnknown ctx act st ids selId field = st := by
  unfold resolveUnknown
  cases h : resolveReference act selId with
  | some object => exact Or.inl ⟨object, rfl⟩
  | none =>
    cases hb : buildIdentifier ctx.program st ids field with
    | none => exact Or.inr rfl
    | some identifier => exact Or.inl (tryCandidates_sets ctx act st selId _ _)

/--
C8 counterexample: for prog8 the last-executed instruction (the PushScope,
id 2) recorded no value and only_value() of the final state is 3, yet the
result is the unknown sentinel for id 2, not 3 — the only_value fallback
is not consulted.
-/
theorem eval_result_ignores_onlyValue :
    Eval ctx8 10 act8 = some (Value.unknown [2], [(1, Value.intV 3)]) ∧
    stateGet [(1, Value.intV 3)] 2 = none ∧
    onlyValue [(1, Value.intV 3)] = some (Value.intV 3) ∧
    Value.unknown [2] ≠ Value.intV 3 :=
  ⟨rfl, rfl, rfl, by simp⟩

/--
C8 amended: when the loop terminates, Eval returns the Eval-State value at
the last-executed instruction's id; when no value was recorded under that
id the result is the unknown sentinel carrying that id — the total read
never produces the nil that would hand control to the only_value fallback.
-/
theorem eval_final_result_total (ctx : Ctx) (fuel : Nat) (act : Activation)
    (st : EvalState) (resultId : Int)
    (hloop : evalLoop ctx fuel 0 act [] 0 = some (st, resultId)) :
    Eval ctx fuel act = some (value st resultId, st) ∧
    (stateGet st resultId = none →
      Eval ctx fuel act = some (Value.unknown [resultId], st)) := by
  constructor
  · simp [Eval, hloop, finalResult]
  · intro hmiss
    simp [Eval, hloop, finalResult, value, hmiss]

/-- Witness for the amended C8 theorem at the concrete two-instruction program. -/
theorem eval_final_result_total_witness :
    Eval ctx8 10 act8 = some (Value.unknown [2], [(1, Value.intV 3)]) :=
  (eval_final_result_total ctx8 10 act8 [(1, Value.intV 3)] 2 rfl).2 rfl

/--
C9: the interpreter's Eval-State read is total — a missing id yields the
unknown sentinel carrying that id and a stored value is returned as-is, so
no read of a Call argument, Select operand, aggregate component, Mov
source or scope-binding target can fault on a missing key.
-/
theorem value_total_read (st : EvalState) (exprId : Int) :
    (stateGet st exprId = none → value st exprId = Value.unknown [exprId]) ∧
    (∀ v, stateGet st exprId = some v → value st exprId = v) := by
  refine ⟨fun h => ?_, fun v h => ?_⟩
  · simp [value, h]
  · simp [value, h]

/-- Witness for C9 at the empty state. -/
theorem value_total_read_witness : value [] 7 = Value.unknown [7] :=
  (value_total_read [] 7).1 rfl
